import Mathlib

/-!
Shallow embedding of the `earentir/inflation` Go library
(`inflation.go`, `data.go`) in Lean 4.

Modelling conventions:
* Go `float64` rate values and prices are modelled as `ℚ`; the claims under
  study are formula-level relations, not bit-level floating-point facts.
* Go maps (`map[string]map[string]float64`) are modelled as association
  lists `List (String × _)`; lookup is first-match on the key, and the map
  iteration order of Go (unspecified, randomized) is modelled as the list
  order.
* Go `error` values built with `fmt.Errorf` are modelled as a structured
  error type carrying exactly the data the format string interpolates.
-/

namespace Inflation

/-- A country's inflation information (`Country` in data.go):
display name, alternate query strings, short code, HICP base year, and the
year-to-month-to-rate table. -/
structure Country where
  name : String
  aliases : List String
  code : String
  baseYear : Int
  inflation : List (String × List (String × ℚ))
deriving DecidableEq, Repr

/-- The top-level rate table (`Data` in data.go): the ordered sequence of
countries. -/
structure Data where
  countries : List Country
deriving DecidableEq, Repr

/-- Structured counterpart of the `fmt.Errorf` errors built by
inflation.go; each constructor carries exactly the values interpolated into
the corresponding format string. -/
inductive Err where
  | countryNotFound (query : String)
  | yearNotFound (year : Int) (country : String)
  | noMonthlyData (year : Int) (country : String)
  | monthNotFound (year : Int) (month : Int) (country : String)
  | invalidMonth (month : Int)
  | baseYearNotSet (country : String)
  | baseRateFetch (e : Err)
  | targetRateFetch (e : Err)
deriving DecidableEq, Repr

/-- First-match association-list lookup; models Go's
`v, exists := m[k]` two-valued map indexing. -/
def lookupA {α : Type} (l : List (String × α)) (k : String) : Option α :=
  match l with
  | [] => none
  | (k', v) :: rest => if k' = k then some v else lookupA rest k

/-- Per-character lower-casing; models Go's `strings.ToLower` on the
ASCII names, codes and aliases the table holds. -/
def strLower (s : String) : String := String.mk (s.data.map Char.toLower)

/-- Decimal value of a digit character, `none` on a non-digit. -/
def charDigit (c : Char) : Option Nat :=
  if c.isDigit then some (c.toNat - 48) else none

/-- Left-to-right decimal accumulation over a character list; `none` as
soon as a non-digit appears. -/
def natOfDigits (cs : List Char) : Option Nat :=
  cs.foldl (fun acc c =>
    match acc, charDigit c with
    | some n, some d => some (n * 10 + d)
    | _, _ => none) (some 0)

/-- Models Go's `strconv.Atoi` with the error discarded: a failed parse
yields `0` (the zero value the callers keep on error). -/
def atoi (s : String) : Int :=
  match s.data with
  | '-' :: rest => ((natOfDigits rest).map (fun n => -(n : Int))).getD 0
  | cs => ((natOfDigits cs).map (fun n => (n : Int))).getD 0

/-- Models Go's `fmt.Sprintf("%d", year)`. -/
def yearKey (y : Int) : String := toString y

/-- Models Go's `fmt.Sprintf("%02d", month)` on the months `1..12` for
which the code evaluates it. -/
def monthKey (m : Int) : String :=
  if m < 10 then "0" ++ toString m else toString m

/-- The alias loop inside `GetCountry`: scan the aliases, `true` at the
first lower-cased alias equal to the (already lower-cased) query. -/
def anyAlias (q : String) : List String → Bool
  | [] => false
  | a :: rest => if strLower a = q then true else anyAlias q rest

/-- The country-scanning loop of `GetCountry`: per country, first the
name/code comparison, then the alias loop, then the next country. The query
argument is already lower-cased, as in the source. -/
def findCountry (q : String) : List Country → Option Country
  | [] => none
  | c :: rest =>
    if strLower c.name = q ∨ strLower c.code = q then some c
    else if anyAlias q c.aliases = true then some c
    else findCountry q rest

/-- `GetCountry` of inflation.go: lower-case the query, scan the countries
in table order, return the first match; otherwise fail with the (by then
lower-cased) query string, exactly as the source formats it. -/
def GetCountry (d : Data) (query : String) : Except Err Country :=
  let q := strLower query
  match findCountry q d.countries with
  | some c => Except.ok c
  | none => Except.error (Err.countryNotFound q)

/-- The month-0 accumulation loop of `YearInflation`:
`for _, rate := range yearData { sum += rate; count++ }`. -/
def sumCount (yearData : List (String × ℚ)) : ℚ × Int :=
  yearData.foldl (fun acc p => (acc.1 + p.2, acc.2 + 1)) (0, 0)

/-- The body of `YearInflation` after country resolution: year lookup,
then the month-0 average / specific-month / invalid-month three-way split.
The `country` argument is the caller's query string, used verbatim in the
error values as the source interpolates it. -/
def yearRate (c : Country) (country : String) (year month : Int) : Except Err ℚ :=
  match lookupA c.inflation (yearKey year) with
  | none => Except.error (Err.yearNotFound year country)
  | some yearData =>
    if month = 0 then
      let sc := sumCount yearData
      if sc.2 = 0 then Except.error (Err.noMonthlyData year country)
      else Except.ok (sc.1 / (sc.2 : ℚ))
    else if 1 ≤ month ∧ month ≤ 12 then
      match lookupA yearData (monthKey month) with
      | none => Except.error (Err.monthNotFound year month country)
      | some rate => Except.ok rate
    else Except.error (Err.invalidMonth month)

/-- `YearInflation` of inflation.go: resolve the country (propagating its
error), then dispatch on the month argument via `yearRate`. -/
def YearInflation (d : Data) (country : String) (year month : Int) : Except Err ℚ :=
  match GetCountry d country with
  | Except.error e => Except.error e
  | Except.ok c => yearRate c country year month

/-- `CompareInflation` of inflation.go: fetch the from-rate, then the
to-rate (each propagating its error, from first), then return
`price * factor` and `(factor - 1) * 100` with `factor = toRate/fromRate`. -/
def CompareInflation (d : Data) (country : String)
    (fromYear fromMonth toYear toMonth : Int) (price : ℚ) :
    Except Err (ℚ × ℚ) :=
  match YearInflation d country fromYear fromMonth with
  | Except.error e => Except.error e
  | Except.ok fromRate =>
    match YearInflation d country toYear toMonth with
    | Except.error e => Except.error e
    | Except.ok toRate =>
      let inflationFactor := toRate / fromRate
      Except.ok (price * inflationFactor, (inflationFactor - 1) * 100)

/-- `CompareInflationWithBaseYear` of inflation.go: resolve the country,
reject a zero base year, fetch the base-year whole-year average (month 0)
and the target rate (each fetch error wrapped distinctly, as the source
wraps them in new `fmt.Errorf` messages), then return `price * factor`. -/
def CompareInflationWithBaseYear (d : Data) (country : String)
    (targetYear targetMonth : Int) (price : ℚ) : Except Err ℚ :=
  match GetCountry d country with
  | Except.error e => Except.error e
  | Except.ok c =>
    if c.baseYear = 0 then Except.error (Err.baseYearNotSet country)
    else
      match YearInflation d country c.baseYear 0 with
      | Except.error e => Except.error (Err.baseRateFetch e)
      | Except.ok baseRate =>
        match YearInflation d country targetYear targetMonth with
        | Except.error e => Except.error (Err.targetRateFetch e)
        | Except.ok targetRate =>
          Except.ok (price * (targetRate / baseRate))

/-- The inner month loop of `GetFirstDate`, run only when a new minimal
year is adopted; note the accumulator `month` carries over from previous
years (it is never reset in the source). -/
def firstDateMonths (months : List (String × ℚ)) (month : Int) : Int :=
  months.foldl (fun month p =>
    let m := atoi p.1
    if month = 0 || m < month then m else month) month

/-- `GetFirstDate` of inflation.go: fold over the year entries carrying
`(year, month)` initialized to the zero values `(0, 0)`. -/
def GetFirstDate (c : Country) : Int × Int :=
  c.inflation.foldl (fun acc entry =>
    let y := atoi entry.1
    if acc.1 = 0 || y < acc.1 then (y, firstDateMonths entry.2 acc.2)
    else acc) (0, 0)

/-- The inner month loop of `GetLastDate`; as in `GetFirstDate` the
`month` accumulator is never reset between years. -/
def lastDateMonths (months : List (String × ℚ)) (month : Int) : Int :=
  months.foldl (fun month p =>
    let m := atoi p.1
    if m > month then m else month) month

/-- `GetLastDate` of inflation.go: fold over the year entries carrying
`(year, month)` initialized to `(0, 0)`. -/
def GetLastDate (c : Country) : Int × Int :=
  c.inflation.foldl (fun acc entry =>
    let y := atoi entry.1
    if y > acc.1 then (y, lastDateMonths entry.2 acc.2)
    else acc) (0, 0)

/-! State-passing forms of the query operations. The Go methods receive
the table through a pointer receiver (`d *Data`); these versions thread
the table value through each sub-operation explicitly, so that the frame
claim (the table is never modified) is a statement about them. The source
bodies contain no assignment through the receiver, so each operation
passes the table on unchanged. -/

/-- State-passing `GetCountry`: result plus the table after the call. -/
def GetCountryOp (query : String) (d : Data) : Except Err Country × Data :=
  (GetCountry d query, d)

/-- State-passing `YearInflation`, threading the table through the
country resolution. -/
def YearInflationOp (country : String) (year month : Int) (d : Data) :
    Except Err ℚ × Data :=
  match GetCountryOp country d with
  | (Except.error e, d1) => (Except.error e, d1)
  | (Except.ok c, d1) => (yearRate c country year month, d1)

/-- State-passing `CompareInflation`, threading the table through both
rate fetches. -/
def CompareInflationOp (country : String)
    (fromYear fromMonth toYear toMonth : Int) (price : ℚ) (d : Data) :
    Except Err (ℚ × ℚ) × Data :=
  match YearInflationOp country fromYear fromMonth d with
  | (Except.error e, d1) => (Except.error e, d1)
  | (Except.ok fromRate, d1) =>
    match YearInflationOp country toYear toMonth d1 with
    | (Except.error e, d2) => (Except.error e, d2)
    | (Except.ok toRate, d2) =>
      let inflationFactor := toRate / fromRate
      (Except.ok (price * inflationFactor, (inflationFactor - 1) * 100), d2)

/-- State-passing `CompareInflationWithBaseYear`, threading the table
through the country resolution and both rate fetches. -/
def CompareInflationWithBaseYearOp (country : String)
    (targetYear targetMonth : Int) (price : ℚ) (d : Data) :
    Except Err ℚ × Data :=
  match GetCountryOp country d with
  | (Except.error e, d1) => (Except.error e, d1)
  | (Except.ok c, d1) =>
    if c.baseYear = 0 then (Except.error (Err.baseYearNotSet country), d1)
    else
      match YearInflationOp country c.baseYear 0 d1 with
      | (Except.error e, d2) => (Except.error (Err.baseRateFetch e), d2)
      | (Except.ok baseRate, d2) =>
        match YearInflationOp country targetYear targetMonth d2 with
        | (Except.error e, d3) => (Except.error (Err.targetRateFetch e), d3)
        | (Except.ok targetRate, d3) =>
          (Except.ok (price * (targetRate / baseRate)), d3)

/-- Spec-side matching predicate for country resolution: the (lower-cased)
query equals the country's lower-cased name, code, or one of its
lower-cased aliases. -/
def countryMatches (q : String) (c : Country) : Prop :=
  (strLower c.name = q ∨ strLower c.code = q) ∨ anyAlias q c.aliases = true

instance (q : String) (c : Country) : Decidable (countryMatches q c) := by
  unfold countryMatches
  infer_instance

/-! Concrete tables used by the witnesses and counterexamples, patterned
after the repository's own test fixture (a US entry with aliases and a
2015 base year, a Germany entry, a Spain entry without a base year). -/

/-- United States test entry: base year 2015; 2015 has two months
averaging to 1/5, 2018 has months 06 and 07, and 2020 is present but
holds no month entries. -/
def usC : Country :=
  { name := "United States", aliases := ["US", "USA"], code := "US",
    baseYear := 2015,
    inflation :=
      [("2015", [("01", 1/10), ("02", 3/10)]),
       ("2018", [("06", 2/5), ("07", 1/5)]),
       ("2020", [])] }

/-- Germany test entry. -/
def deC : Country :=
  { name := "Germany", aliases := ["DE", "GER"], code := "DE",
    baseYear := 2015,
    inflation := [("2015", [("04", 2/25)])] }

/-- Spain test entry: no base year configured (`baseYear = 0`). -/
def esC : Country :=
  { name := "Spain", aliases := ["ES"], code := "ES", baseYear := 0,
    inflation := [] }

/-- The main concrete table: US, Germany, Spain in that order. -/
def dTest : Data := { countries := [usC, deC, esC] }

/-- A table whose single country has a zero rate at 2000-01 (and a zero
2000 yearly average), for the division-by-zero claim. -/
def zzC : Country :=
  { name := "Zeroland", aliases := [], code := "ZZ", baseYear := 2000,
    inflation := [("2000", [("01", 0)]), ("2001", [("01", 5)])] }

/-- Table containing only `zzC`. -/
def dZero : Data := { countries := [zzC] }

/-- A country whose year entries arrive with the larger year first: year
2000 holds only month 05, year 1990 holds only month 07. -/
def cBugFirst : Country :=
  { name := "Firstland", aliases := [], code := "FL", baseYear := 0,
    inflation := [("2000", [("05", 1)]), ("1990", [("07", 1)])] }

/-- A country whose later year holds only an earlier month: year 2000
holds only month 12, year 2010 holds only month 01. -/
def cBugLast : Country :=
  { name := "Lastland", aliases := [], code := "LL", baseYear := 0,
    inflation := [("2000", [("12", 1)]), ("2010", [("01", 1)])] }

/-! Helper lemmas. -/

/-- Generalized-accumulator description of the month-0 summation loop. -/
theorem sumCount_go (l : List (String × ℚ)) (s : ℚ) (n : Int) :
    l.foldl (fun acc p => (acc.1 + p.2, acc.2 + 1)) (s, n) =
      (s + (l.map Prod.snd).sum, n + l.length) := by
  induction l generalizing s n with
  | nil => simp
  | cons hd tl ih =>
    simp only [List.foldl_cons, ih, List.map_cons, List.sum_cons,
      List.length_cons]
    refine Prod.ext ?_ ?_
    · ring
    · push_cast
      ring

/-- The month-0 summation loop returns the sum of the rate values present
and the number of month entries. -/
theorem sumCount_eq (l : List (String × ℚ)) :
    sumCount l = ((l.map Prod.snd).sum, (l.length : Int)) := by
  have h := sumCount_go l 0 0
  simpa [sumCount] using h

/-- One scanning step of `findCountry`, expressed through the matching
predicate. -/
theorem findCountry_cons (q : String) (c : Country) (rest : List Country) :
    findCountry q (c :: rest) =
      if countryMatches q c then some c else findCountry q rest := by
  by_cases h1 : strLower c.name = q ∨ strLower c.code = q
  · rw [findCountry, if_pos h1,
      if_pos (show countryMatches q c from Or.inl h1)]
  · by_cases h2 : anyAlias q c.aliases = true
    · rw [findCountry, if_neg h1, if_pos h2,
        if_pos (show countryMatches q c from Or.inr h2)]
    · have hn : ¬ countryMatches q c := by
        intro h
        rcases h with h | h
        · exact h1 h
        · exact h2 h
      rw [findCountry, if_neg h1, if_neg h2, if_neg hn]

/-- Scanning past a block of non-matching countries reaches the first
match. -/
theorem findCountry_first (q : String) (pre post : List Country)
    (c : Country) (hm : countryMatches q c)
    (hpre : ∀ cp ∈ pre, ¬ countryMatches q cp) :
    findCountry q (pre ++ c :: post) = some c := by
  induction pre with
  | nil => rw [List.nil_append, findCountry_cons, if_pos hm]
  | cons hd tl ih =>
    rw [List.cons_append, findCountry_cons,
      if_neg (hpre hd (List.mem_cons_self hd tl))]
    exact ih (fun cp hcp => hpre cp (List.mem_cons_of_mem hd hcp))

/-- A scan over countries none of which match comes back empty. -/
theorem findCountry_none (q : String) (l : List Country)
    (h : ∀ c ∈ l, ¬ countryMatches q c) : findCountry q l = none := by
  induction l with
  | nil => rfl
  | cons hd tl ih =>
    rw [findCountry_cons, if_neg (h hd (List.mem_cons_self hd tl))]
    exact ih (fun c hc => h c (List.mem_cons_of_mem hd hc))

/-- The 2015 whole-year average of the US test entry. -/
theorem usAvg2015 : YearInflation dTest "US" 2015 0 = Except.ok (1/5) := by
  have h : YearInflation dTest "US" 2015 0 =
      Except.ok ((0 + 1/10 + 3/10) / (((0 : Int) + 1 + 1 : Int) : ℚ)) := rfl
  rw [h]
  norm_num

/-! The claims. -/

/-- C1: whenever both rate fetches succeed, `CompareInflation` succeeds
with new price `price * toRate/fromRate` and cumulative rate
`(toRate/fromRate - 1) * 100`; when the from fetch fails its error is
surfaced (it is evaluated first), and otherwise a failing to fetch
surfaces the to error — never a partial result. -/
theorem compare_consistent_with_rates (d : Data) (c : String)
    (y1 m1 y2 m2 : Int) (p : ℚ) :
    (∀ r1 r2 : ℚ, YearInflation d c y1 m1 = Except.ok r1 →
        YearInflation d c y2 m2 = Except.ok r2 →
        CompareInflation d c y1 m1 y2 m2 p =
          Except.ok (p * (r2 / r1), (r2 / r1 - 1) * 100))
    ∧ (∀ e : Err, YearInflation d c y1 m1 = Except.error e →
        CompareInflation d c y1 m1 y2 m2 p = Except.error e)
    ∧ (∀ (r1 : ℚ) (e : Err), YearInflation d c y1 m1 = Except.ok r1 →
        YearInflation d c y2 m2 = Except.error e →
        CompareInflation d c y1 m1 y2 m2 p = Except.error e) := by
  refine ⟨?_, ?_, ?_⟩
  · intro r1 r2 h1 h2
    simp only [CompareInflation, h1, h2]
  · intro e h1
    simp only [CompareInflation, h1]
  · intro r1 e h1 h2
    simp only [CompareInflation, h1, h2]

/-- Witness for C1 at the concrete table: US 2015-02 (rate 3/10) to
2018-06 (rate 2/5) on price 35. -/
theorem compare_consistent_with_rates_witness :
    CompareInflation dTest "US" 2015 2 2018 6 35 =
      Except.ok (35 * ((2/5) / (3/10)), ((2/5) / (3/10) - 1) * 100) :=
  (compare_consistent_with_rates dTest "US" 2015 2 2018 6 35).1
    (3/10) (2/5) rfl rfl

/-- C2: with month 0, the rate is the arithmetic mean of exactly the rate
values present under the year (sum divided by the number of populated
month entries), and a year key holding zero month entries signals the
no-monthly-data error. -/
theorem year_average_over_present_months (d : Data) (q : String) (y : Int)
    (c : Country) (yd : List (String × ℚ))
    (hc : GetCountry d q = Except.ok c)
    (hy : lookupA c.inflation (yearKey y) = some yd) :
    (yd ≠ [] →
      YearInflation d q y 0 =
        Except.ok ((yd.map Prod.snd).sum / (yd.length : ℚ)))
    ∧ (yd = [] →
      YearInflation d q y 0 = Except.error (Err.noMonthlyData y q)) := by
  constructor
  · intro hne
    have hlen : ((yd.length : Int) : ℚ) = (yd.length : ℚ) := by push_cast; ring
    have hnz : ¬ ((yd.length : Int) = 0) := by
      simpa using hne
    simp only [YearInflation, hc, yearRate, hy, sumCount_eq,
      if_pos rfl, if_neg hnz, hlen, if_true]
  · intro he
    subst he
    simp only [YearInflation, hc, yearRate, hy]
    rfl

/-- Witness for C2 at the concrete table: the US 2015 entries average to
1/5 over the two months present, and the empty 2020 year signals the
no-monthly-data error. -/
theorem year_average_over_present_months_witness :
    YearInflation dTest "US" 2015 0 = Except.ok (1/5)
    ∧ YearInflation dTest "US" 2020 0 =
      Except.error (Err.noMonthlyData 2020 "US") := by
  constructor
  · have h := (year_average_over_present_months dTest "US" 2015 usC
      [("01", (1:ℚ)/10), ("02", (3:ℚ)/10)] rfl rfl).1 (by simp)
    rw [h]
    norm_num
  · exact (year_average_over_present_months dTest "US" 2020 usC
      [] rfl rfl).2 rfl

/-- C3 counterexample: with month 13 the code surfaces the
country-not-found error for an unknown country and the year-not-found
error for an absent year; neither equals the invalid-month error, so the
invalid-month check is not performed before the table accesses. -/
theorem invalid_month_checked_late_cex :
    YearInflation dTest "France" 2015 13 =
      Except.error (Err.countryNotFound "france")
    ∧ Err.countryNotFound "france" ≠ Err.invalidMonth 13
    ∧ YearInflation dTest "US" 2019 13 =
      Except.error (Err.yearNotFound 2019 "US")
    ∧ Err.yearNotFound 2019 "US" ≠ Err.invalidMonth 13 :=
  ⟨rfl, by decide, rfl, by decide⟩

/-- C3 amended: a month outside `{0, 1..12}` signals the invalid-month
error only once the country query resolves and the year key is present;
country resolution and year lookup happen first, so their errors take
precedence. -/
theorem invalid_month_after_resolution (d : Data) (q : String)
    (y m : Int) (c : Country) (yd : List (String × ℚ))
    (hc : GetCountry d q = Except.ok c)
    (hy : lookupA c.inflation (yearKey y) = some yd)
    (hm : m < 0 ∨ 12 < m) :
    YearInflation d q y m = Except.error (Err.invalidMonth m) := by
  have hm0 : ¬ (m = 0) := by omega
  have hm12 : ¬ (1 ≤ m ∧ m ≤ 12) := by omega
  simp only [YearInflation, hc, yearRate, hy, if_neg hm0, if_neg hm12]

/-- Witness for the amended C3: month 13 on a present country and year. -/
theorem invalid_month_after_resolution_witness :
    YearInflation dTest "US" 2015 13 =
      Except.error (Err.invalidMonth 13) :=
  invalid_month_after_resolution dTest "US" 2015 13 usC
    [("01", (1:ℚ)/10), ("02", (3:ℚ)/10)] rfl rfl (Or.inr (by norm_num))

/-- C4: a query whose lower-cased form matches a country's lower-cased
name, code, or an alias, and matches no earlier country in table order,
resolves to that country (first match in table order). -/
theorem resolve_returns_first_match (d : Data) (q : String)
    (pre post : List Country) (c : Country)
    (hsplit : d.countries = pre ++ c :: post)
    (hm : countryMatches (strLower q) c)
    (hpre : ∀ cp ∈ pre, ¬ countryMatches (strLower q) cp) :
    GetCountry d q = Except.ok c := by
  simp only [GetCountry, hsplit,
    findCountry_first (strLower q) pre post c hm hpre]

/-- Witness for C4: the alias query "GER" (mixed case irrelevant) resolves
to the Germany entry, the second in table order. -/
theorem resolve_returns_first_match_witness :
    GetCountry dTest "GER" = Except.ok deC :=
  resolve_returns_first_match dTest "GER" [usC] [esC] deC rfl
    (Or.inr rfl)
    (by intro cp hcp
        rw [List.mem_singleton] at hcp
        subst hcp
        decide)

/-- C5: for a resolvable country with a nonzero base year, when the
base-year whole-year average (month 0) and the target rate both fetch
successfully, the base-year comparison returns exactly
`price * targetRate / baseRate` — a single price, with no cumulative-rate
output (the result type carries one rational only), and the base fetch is
the month-0 fetch at the country's base year whatever the target month
is. -/
theorem base_year_compare_uses_year_average (d : Data) (q : String)
    (ty tm : Int) (p : ℚ) (c : Country) (b t : ℚ)
    (hc : GetCountry d q = Except.ok c)
    (hb0 : ¬ (c.baseYear = 0))
    (hbase : YearInflation d q c.baseYear 0 = Except.ok b)
    (htarget : YearInflation d q ty tm = Except.ok t) :
    CompareInflationWithBaseYear d q ty tm p = Except.ok (p * (t / b)) := by
  simp only [CompareInflationWithBaseYear, hc, if_neg hb0, hbase, htarget]

/-- Witness for C5: US base year 2015 (average 1/5), specific-month
target 2018-06 (rate 2/5), price 35, giving 70. -/
theorem base_year_compare_uses_year_average_witness :
    CompareInflationWithBaseYear dTest "US" 2018 6 35 = Except.ok 70 := by
  have h := base_year_compare_uses_year_average dTest "US" 2018 6 35 usC
    (1/5) (2/5) rfl (by decide) usAvg2015 rfl
  rw [h]
  norm_num

/-- C6: a resolvable country whose base year is zero signals the
base-year-not-set error for every price and every target date — valid or
not — before any rate fetch (no rate-fetch wrapper appears in the
error). -/
theorem base_year_zero_signals_error (d : Data) (q : String)
    (ty tm : Int) (p : ℚ) (c : Country)
    (hc : GetCountry d q = Except.ok c)
    (hb : c.baseYear = 0) :
    CompareInflationWithBaseYear d q ty tm p =
      Except.error (Err.baseYearNotSet q) := by
  simp only [CompareInflationWithBaseYear, hc, if_pos hb]

/-- Witness for C6: Spain has no base year; even with the invalid target
month 13 and an absent year the base-year-not-set error is signalled. -/
theorem base_year_zero_signals_error_witness :
    CompareInflationWithBaseYear dTest "ES" 2018 13 50 =
      Except.error (Err.baseYearNotSet "ES") :=
  base_year_zero_signals_error dTest "ES" 2018 13 50 esC rfl rfl

/-- C7 counterexample: in the table `dZero` the from rate at 2000-01 and
the base-year average both resolve to exactly zero, yet both comparison
operations succeed (no error of any kind — the error type has no
division-by-zero case the code could produce). -/
theorem zero_rate_no_error_cex :
    YearInflation dZero "ZZ" 2000 1 = Except.ok 0
    ∧ (CompareInflation dZero "ZZ" 2000 1 2001 1 10).isOk = true
    ∧ (CompareInflationWithBaseYear dZero "ZZ" 2001 1 10).isOk = true :=
  ⟨rfl, rfl, rfl⟩

/-- C7 amended: when the from rate (two-date comparison) or the base rate
(base-year comparison) resolves to exactly zero, the operation signals no
error at all: the division falls through to the platform's
floating-point semantics (infinity or NaN in the original float code)
and a success result is returned. -/
theorem zero_rate_still_succeeds (d : Data) (q : String)
    (y1 m1 y2 m2 : Int) (p r : ℚ) (c : Country) :
    (YearInflation d q y1 m1 = Except.ok 0 →
      YearInflation d q y2 m2 = Except.ok r →
      (CompareInflation d q y1 m1 y2 m2 p).isOk = true)
    ∧ (GetCountry d q = Except.ok c → ¬ (c.baseYear = 0) →
      YearInflation d q c.baseYear 0 = Except.ok 0 →
      YearInflation d q y2 m2 = Except.ok r →
      (CompareInflationWithBaseYear d q y2 m2 p).isOk = true) := by
  constructor
  · intro h1 h2
    simp only [CompareInflation, h1, h2, Except.isOk, Except.toBool]
  · intro hc hb0 hbase ht
    simp only [CompareInflationWithBaseYear, hc, if_neg hb0, hbase, ht,
      Except.isOk, Except.toBool]

/-- Witness for the amended C7, at `dZero`: both the zero from rate and
the zero base rate yield success. -/
theorem zero_rate_still_succeeds_witness :
    (CompareInflation dZero "ZZ" 2000 1 2001 1 10).isOk = true
    ∧ (CompareInflationWithBaseYear dZero "ZZ" 2001 1 10).isOk = true := by
  have h := zero_rate_still_succeeds dZero "ZZ" 2000 1 2001 1 10 5 zzC
  refine ⟨h.1 rfl rfl, h.2 rfl (by decide) ?_ rfl⟩
  show YearInflation dZero "ZZ" 2000 0 = Except.ok 0
  have hb : YearInflation dZero "ZZ" 2000 0 =
      Except.ok ((0 + 0) / (((0 : Int) + 1 : Int) : ℚ)) := rfl
  rw [hb]
  norm_num

/-- C8 counterexample: the failed lookup for the query "France" carries
the lower-cased string "france", not the original query. -/
theorem country_not_found_lowercased_cex :
    GetCountry dTest "France" = Except.error (Err.countryNotFound "france")
    ∧ Err.countryNotFound "france" ≠ Err.countryNotFound "France" :=
  ⟨rfl, by decide⟩

/-- C8 amended: when no country's name, code, or alias matches, the
country-not-found error carries the lower-cased form of the caller's
query (the query is normalized before the failing scan and the
normalized form is what reaches the error). -/
theorem country_not_found_carries_lowercased_query (d : Data) (q : String)
    (h : ∀ c ∈ d.countries, ¬ countryMatches (strLower q) c) :
    GetCountry d q = Except.error (Err.countryNotFound (strLower q)) := by
  simp only [GetCountry, findCountry_none (strLower q) d.countries h]

/-- Witness for the amended C8: the unmatched query "Atlantis" produces
the error carrying "atlantis". -/
theorem country_not_found_carries_lowercased_query_witness :
    GetCountry dTest "Atlantis" =
      Except.error (Err.countryNotFound "atlantis") :=
  country_not_found_carries_lowercased_query dTest "Atlantis" (by decide)

/-- C9, evaluated at the failing inputs: on `cBugFirst` (year 2000 holding
only month 05 listed before year 1990 holding only month 07) the
first-date query returns (1990, 5), but the key "05" is not present under
the returned year 1990; on `cBugLast` (year 2000 holding only month 12
listed before year 2010 holding only month 01) the last-date query
returns (2010, 12), but the key "12" is not present under the returned
year 2010. The `month` accumulator is never reset when a new extremal
year is adopted. -/
theorem first_last_date_month_mismatch_eval :
    GetFirstDate cBugFirst = (1990, 5)
    ∧ lookupA cBugFirst.inflation "1990" = some [("07", (1 : ℚ))]
    ∧ lookupA [(("07" : String), (1 : ℚ))] (monthKey 5) = none
    ∧ GetLastDate cBugLast = (2010, 12)
    ∧ lookupA cBugLast.inflation "2010" = some [("01", (1 : ℚ))]
    ∧ lookupA [(("01" : String), (1 : ℚ))] (monthKey 12) = none :=
  ⟨rfl, rfl, rfl, rfl, rfl, rfl⟩

/-- The state-passing rate lookup agrees with the functional one and
passes the table through unchanged. -/
theorem yearInflationOp_eq (q : String) (y m : Int) (d : Data) :
    YearInflationOp q y m d = (YearInflation d q y m, d) := by
  simp only [YearInflationOp, GetCountryOp, YearInflation]
  cases GetCountry d q <;> rfl

/-- The state-passing two-date comparison agrees with the functional one
and passes the table through unchanged. -/
theorem compareInflationOp_eq (q : String) (fy fm ty tm : Int) (p : ℚ)
    (d : Data) :
    CompareInflationOp q fy fm ty tm p d =
      (CompareInflation d q fy fm ty tm p, d) := by
  simp only [CompareInflationOp, CompareInflation, yearInflationOp_eq]
  cases YearInflation d q fy fm with
  | error e => rfl
  | ok r =>
    dsimp only
    cases YearInflation d q ty tm <;> rfl

/-- The state-passing base-year comparison agrees with the functional one
and passes the table through unchanged. -/
theorem compareWithBaseYearOp_eq (q : String) (ty tm : Int) (p : ℚ)
    (d : Data) :
    CompareInflationWithBaseYearOp q ty tm p d =
      (CompareInflationWithBaseYear d q ty tm p, d) := by
  simp only [CompareInflationWithBaseYearOp, CompareInflationWithBaseYear,
    GetCountryOp, yearInflationOp_eq]
  cases GetCountry d q with
  | error e => rfl
  | ok c =>
    dsimp only
    by_cases hb : c.baseYear = 0
    · simp only [if_pos hb]
    · simp only [if_neg hb]
      cases YearInflation d q c.baseYear 0 with
      | error e => rfl
      | ok b =>
        dsimp only
        cases YearInflation d q ty tm <;> rfl

/-- C10: every query operation — country resolution, rate lookup,
two-date comparison, base-year comparison — leaves the rate table (all
countries with their names, codes, aliases, base years, and year/month
entries) exactly as it was, whether the operation succeeds or fails. -/
theorem query_operations_preserve_table (d : Data) (q : String)
    (y m y2 m2 : Int) (p : ℚ) :
    (GetCountryOp q d).2 = d
    ∧ (YearInflationOp q y m d).2 = d
    ∧ (CompareInflationOp q y m y2 m2 p d).2 = d
    ∧ (CompareInflationWithBaseYearOp q y m p d).2 = d := by
  refine ⟨rfl, ?_, ?_, ?_⟩
  · rw [yearInflationOp_eq]
  · rw [compareInflationOp_eq]
  · rw [compareWithBaseYearOp_eq]

end Inflation
